import Mathlib

/-
Shallow embedding of src/useFetch.ts (mesan-react-native-use-fetch).

The hook useFetch owns eight state variables (data, page, hasNextPage,
totalResults, error and the three loading flags) and exposes fetch
operations (fetchData, refetchData, fetchNextPage), a flag-clearing data
setter, and four local mutations.  The embedding models one operation run
to completion with no interleaved operation:

  - React state setters become updates on an explicit FetchState record.
  - The useEffect on [isFetching, isRefreshing, isFetchingMore] that
    clears error (source lines 90-92) runs whenever a state flush changes
    the flag triple; we apply it at each flush boundary (the await
    suspension and the post-completion flush), comparing the flag triple
    before and after the batch, as React does.
  - Closures capture the render snapshot: setExtractedData reads the
    `data` variable of the render that created fetchData, so it
    concatenates onto the data as of invocation, not onto the value
    written by the setData([]) reset earlier in the same call.  The
    embedding threads that captured list explicitly.
  - The transport (serviceFn) is modelled as a pure function from the
    page params to an outcome (resolve with a response / reject with an
    optional message); absence of serviceFn is the None case.
  - Records (JS objects) are association lists of string keys to a small
    value type; JS spread-merge and field access are modelled directly.
-/

namespace UseFetch

/-- A JS primitive value stored in a record field. -/
inductive Value where
  | vStr : String → Value
  | vInt : Int → Value
  | vBool : Bool → Value
deriving DecidableEq, Repr

/-- A JS object: association list from field names to values (unique keys). -/
abbrev Record := List (String × Value)

/-- Field access obj[k]: the value at key k, none when the key is absent. -/
def getField (obj : Record) (k : String) : Option Value :=
  (obj.find? (fun p => p.1 == k)).map (fun p => p.2)

/-- JS computed-key spread { ...obj, [k]: v }: replace the value at k in
place when the key exists, otherwise add the key at the end. -/
def setField (obj : Record) (k : String) (v : Value) : Record :=
  if obj.any (fun p => p.1 == k) then
    obj.map (fun p => if p.1 == k then (k, v) else p)
  else
    obj ++ [(k, v)]

/-- JS shallow merge { ...a, ...b }: every field of b overrides a. -/
def mergeRecords (a b : Record) : Record :=
  b.foldl (fun r p => setField r p.1 p.2) a

/-- The FetchState snapshot: the eight useState variables of the hook. -/
structure FetchState where
  data : List Record
  error : Option String
  page : Int
  hasNextPage : Bool
  totalResults : Option Int
  isFetching : Bool
  isRefreshing : Bool
  isFetchingMore : Bool
deriving DecidableEq, Repr

/-- Params passed to the service function. -/
structure GetDataParams where
  page : Int
deriving DecidableEq, Repr

/-- A raw service response: an open structure of which the hook itself only
reads the `data` field (absent fields read as undefined). -/
structure ServiceResponse where
  data : Option (List Record) := none
  rest : List (String × Value) := []
deriving DecidableEq, Repr

/-- The shape returned by a dataExtractor. -/
structure ExtractedData where
  data : List Record
  totalResults : Option Int := none
  currentPage : Option Int := none
  totalPages : Option Int := none
deriving DecidableEq, Repr

/-- Outcome of awaiting the service function: resolve or reject.  A JS
error may carry no usable message (absent or empty string). -/
inductive FetchOutcome where
  | success : ServiceResponse → FetchOutcome
  | failure : Option String → FetchOutcome
deriving DecidableEq, Repr

/-- Hook configuration (FetchProps).  serviceFn is the transport modelled
as a pure outcome function; hasOnError records whether an onError callback
was supplied. -/
structure FetchProps where
  initialData : List Record := []
  serviceFn : Option (GetDataParams → FetchOutcome) := none
  dataExtractor : Option (ServiceResponse → ExtractedData) := none
  hasOnError : Bool := false
  shouldFetch : Bool := true

/-- Result of running one operation: the final state, the pages requested
from the service function, and the messages passed to onError. -/
structure FetchResult where
  state : FetchState
  serviceCalls : List Int
  onErrorCalls : List String
deriving DecidableEq, Repr

/-- The state at hook construction (source lines 80-88). -/
def initialState (initialData : List Record) : FetchState :=
  { data := initialData
    error := none
    page := 1
    hasNextPage := false
    totalResults := none
    isFetching := false
    isRefreshing := false
    isFetchingMore := false }

/-- The flag triple the error-clearing useEffect depends on. -/
def flagsOf (s : FetchState) : Bool × Bool × Bool :=
  (s.isFetching, s.isRefreshing, s.isFetchingMore)

/-- The useEffect of source lines 90-92: when the flag triple changed in
the flush from prev to s, and some flag is set, clear error. -/
def runEffect (prev s : FetchState) : FetchState :=
  if flagsOf prev ≠ flagsOf s then
    if s.isFetching || s.isRefreshing || s.isFetchingMore then
      { s with error := none }
    else s
  else s

/-- The finally block of fetchData (source lines 127-131). -/
def clearFlags (s : FetchState) : FetchState :=
  { s with isFetching := false, isRefreshing := false, isFetchingMore := false }

def defaultErrorMessage : String := "An error occurred"

/-- err.message or the fallback text: JS || treats an absent and an empty
message alike. -/
def errMessage : Option String → String
  | some m => if m = "" then defaultErrorMessage else m
  | none => defaultErrorMessage

def idKey : String := "id"

/-- The internal extraction step (source lines 135-149).  capturedData is
the `data` variable of the render closure that created fetchData: the list
as of invocation, unaffected by the setData([]) reset. -/
def setExtractedData (dataExtractor : Option (ServiceResponse → ExtractedData))
    (capturedData : List Record) (response : ServiceResponse)
    (s : FetchState) : FetchState :=
  match dataExtractor with
  | some extractor =>
      let extractedData := extractor response
      let newData := extractedData.data
      let totalResults := extractedData.totalResults.getD 0
      let currentPage := extractedData.currentPage.getD 1
      let totalPages := extractedData.totalPages.getD 1
      { s with
        totalResults := some totalResults
        hasNextPage := totalPages > currentPage
        data := if currentPage > 1 then capturedData ++ newData else newData }
  | none =>
      let newData := response.data.getD []
      { s with data := capturedData ++ newData }

/-- The synchronous prefix of fetchData up to the await (source lines
113-119), followed by the error-clearing effect firing at the suspension
flush.  prev is the state whose flags the effect last saw (it differs from
the live state s only when fetchNextPage set isFetchingMore just before). -/
def fetchDataPre (prev s : FetchState) (refresh : Bool) (more : Bool) : FetchState :=
  let s1 := if !refresh && !more then { s with isFetching := true, data := [] } else s
  let s2 := if !more then { s1 with page := 1 } else s1
  let s3 := if refresh then { s2 with isRefreshing := true } else s2
  runEffect prev s3

/-- fetchData run to completion (source lines 106-132).  prev is the flag
baseline for the effect, s0 the live state at entry; the captured render
data used by extraction is s0.data.  pageParam is the page argument, which
shadows the page state inside fetchData. -/
def fetchDataAux (cfg : FetchProps) (prev s0 : FetchState)
    (refresh : Bool) (pageParam : Int) (more : Bool) : FetchResult :=
  match cfg.serviceFn with
  | none => { state := s0, serviceCalls := [], onErrorCalls := [] }
  | some f =>
      let s4 := fetchDataPre prev s0 refresh more
      match f { page := pageParam } with
      | FetchOutcome.success response =>
          let s5 := setExtractedData cfg.dataExtractor s0.data response s4
          let s6 := { s5 with page := pageParam }
          let s7 := runEffect s4 (clearFlags s6)
          { state := s7, serviceCalls := [pageParam], onErrorCalls := [] }
      | FetchOutcome.failure msg =>
          let m := errMessage msg
          let s5 := { s4 with error := some m }
          let s6 := runEffect s4 (clearFlags s5)
          { state := s6
            serviceCalls := [pageParam]
            onErrorCalls := if cfg.hasOnError then [m] else [] }

/-- A direct call of fetchData(refresh, page, more) from a quiescent
render: the effect baseline and the live state coincide. -/
def fetchData (cfg : FetchProps) (s0 : FetchState)
    (refresh : Bool) (pageParam : Int) (more : Bool) : FetchResult :=
  fetchDataAux cfg s0 s0 refresh pageParam more

/-- refetchData (source lines 152-154): fetchData with refresh = value,
page and more left at their defaults 1 and false. -/
def refetchData (cfg : FetchProps) (s0 : FetchState) (value : Bool := true) : FetchResult :=
  fetchData cfg s0 value 1 false

/-- fetchNextPage (source lines 157-162): no-op unless hasNextPage; else
set isFetchingMore and run fetchData(false, page + 1, true).  The flag
write lands in the same flush as the fetchData prefix, so the effect
baseline stays the entry state s0. -/
def fetchNextPage (cfg : FetchProps) (s0 : FetchState) : FetchResult :=
  if s0.hasNextPage then
    fetchDataAux cfg s0 { s0 with isFetchingMore := true } false (s0.page + 1) true
  else { state := s0, serviceCalls := [], onErrorCalls := [] }

/-- The setData action the hook returns (source lines 99-104): sets data
and clears the three loading flags; the effect then fires on the flag
change with all flags false, so it leaves error alone. -/
def setDataAction (newData : List Record) (s : FetchState) : FetchState :=
  runEffect s { s with
    data := newData
    isFetching := false
    isRefreshing := false
    isFetchingMore := false }

/-- addNewData (source lines 166-169): prepend the new record. -/
def addNewData (newData : Record) (s : FetchState) : FetchState :=
  { s with data := newData :: s.data }

/-- updateExistingData (source lines 172-180): find the first record whose
id field equals id and shallow-merge newData into it; no-op when absent. -/
def updateExistingData (id : Value) (newData : Record) (s : FetchState) : FetchState :=
  match s.data.findIdx? (fun obj => getField obj idKey == some id) with
  | some index =>
      { s with data := s.data.set index (mergeRecords (s.data.getD index []) newData) }
  | none => s

/-- updateExistingDataWithKey (source lines 183-204): rewrite the field
keyToUpdate to newValue on every record whose matchKey field equals
matchId. -/
def updateExistingDataWithKey (matchId : Value) (keyToUpdate : String)
    (newValue : Value) (matchKey : String) (s : FetchState) : FetchState :=
  { s with data := s.data.map (fun obj =>
      if getField obj matchKey == some matchId then setField obj keyToUpdate newValue
      else obj) }

/-- deleteExistingData (source lines 207-210): keep the records whose id
field differs from id (records without an id field are kept). -/
def deleteExistingData (id : Value) (s : FetchState) : FetchState :=
  { s with data := s.data.filter (fun obj => !(getField obj idKey == some id)) }

/-! Sample values used by concrete counterexamples and witnesses. -/

def nameKey : String := "name"

def msgTimeout : String := "timeout"

def strX : String := "x"

/-- A record with a single id field. -/
def recA : Record := [(idKey, Value.vInt 1)]

/-- The record of Scenario A of the spec. -/
def recX : Record := [(idKey, Value.vInt 1), (nameKey, Value.vStr strX)]

/-- A transport that always resolves with a response whose data field
holds exactly recX. -/
def serviceFnX : GetDataParams → FetchOutcome :=
  fun _ => FetchOutcome.success { data := some [recX] }

/-- A transport that always rejects with the message of Scenario C. -/
def serviceFnTimeout : GetDataParams → FetchOutcome :=
  fun _ => FetchOutcome.failure (some msgTimeout)

/-- Scenario A configuration: no adapter, transport resolving with recX. -/
def cfgA : FetchProps :=
  { serviceFn := some serviceFnX, dataExtractor := none }

/-- Scenario C configuration: rejecting transport, onError supplied. -/
def cfgC : FetchProps :=
  { serviceFn := some serviceFnTimeout, hasOnError := true }

/-- Records standing for three page-two items of Scenario B. -/
def recP (n : Int) : Record := [(idKey, Value.vInt n)]

/-- The extraction Scenario B produces: three items, total 30, current
page 2 of 3 total pages. -/
def extractorB : ServiceResponse → ExtractedData :=
  fun _ => { data := [recP 4, recP 5, recP 6]
             totalResults := some 30
             currentPage := some 2
             totalPages := some 3 }

/-- Scenario B configuration: adapter extractorB over a resolving
transport. -/
def cfgB : FetchProps :=
  { serviceFn := some (fun _ => FetchOutcome.success {})
    dataExtractor := some extractorB }

/-- An adapter that reports no pagination fields at all. -/
def extractorPlain : ServiceResponse → ExtractedData :=
  fun r => { data := r.data.getD [] }

/-- Configuration with an adapter omitting all pagination fields. -/
def cfgPlain : FetchProps :=
  { serviceFn := some serviceFnX, dataExtractor := some extractorPlain }

/-- A state with one record loaded and quiescent flags, as after a
successful first load. -/
def stateOneItem : FetchState :=
  { initialState [recA] with hasNextPage := true, totalResults := some 2 }

/-- A quiescent state carrying an error message, as left by a failed
operation. -/
def stateErr : FetchState := { initialState [recA] with error := some msgTimeout }

/-! Frame lemmas: which fields each state transformer leaves untouched. -/

@[simp] theorem runEffect_data (p s : FetchState) : (runEffect p s).data = s.data := by
  unfold runEffect
  split
  · split
    · rfl
    · rfl
  · rfl

@[simp] theorem runEffect_page (p s : FetchState) : (runEffect p s).page = s.page := by
  unfold runEffect
  split
  · split
    · rfl
    · rfl
  · rfl

@[simp] theorem runEffect_hasNextPage (p s : FetchState) :
    (runEffect p s).hasNextPage = s.hasNextPage := by
  unfold runEffect
  split
  · split
    · rfl
    · rfl
  · rfl

@[simp] theorem runEffect_totalResults (p s : FetchState) :
    (runEffect p s).totalResults = s.totalResults := by
  unfold runEffect
  split
  · split
    · rfl
    · rfl
  · rfl

@[simp] theorem runEffect_isFetching (p s : FetchState) :
    (runEffect p s).isFetching = s.isFetching := by
  unfold runEffect
  split
  · split
    · rfl
    · rfl
  · rfl

@[simp] theorem runEffect_isRefreshing (p s : FetchState) :
    (runEffect p s).isRefreshing = s.isRefreshing := by
  unfold runEffect
  split
  · split
    · rfl
    · rfl
  · rfl

@[simp] theorem runEffect_isFetchingMore (p s : FetchState) :
    (runEffect p s).isFetchingMore = s.isFetchingMore := by
  unfold runEffect
  split
  · split
    · rfl
    · rfl
  · rfl

@[simp] theorem clearFlags_data (s : FetchState) : (clearFlags s).data = s.data := rfl

@[simp] theorem clearFlags_error (s : FetchState) : (clearFlags s).error = s.error := rfl

@[simp] theorem clearFlags_page (s : FetchState) : (clearFlags s).page = s.page := rfl

@[simp] theorem clearFlags_hasNextPage (s : FetchState) :
    (clearFlags s).hasNextPage = s.hasNextPage := rfl

@[simp] theorem clearFlags_totalResults (s : FetchState) :
    (clearFlags s).totalResults = s.totalResults := rfl

@[simp] theorem clearFlags_isFetching (s : FetchState) :
    (clearFlags s).isFetching = false := rfl

@[simp] theorem clearFlags_isRefreshing (s : FetchState) :
    (clearFlags s).isRefreshing = false := rfl

@[simp] theorem clearFlags_isFetchingMore (s : FetchState) :
    (clearFlags s).isFetchingMore = false := rfl

@[simp] theorem setExtractedData_error (d : Option (ServiceResponse → ExtractedData))
    (c : List Record) (r : ServiceResponse) (s : FetchState) :
    (setExtractedData d c r s).error = s.error := by
  cases d <;> rfl

@[simp] theorem setExtractedData_page (d : Option (ServiceResponse → ExtractedData))
    (c : List Record) (r : ServiceResponse) (s : FetchState) :
    (setExtractedData d c r s).page = s.page := by
  cases d <;> rfl

@[simp] theorem setExtractedData_isFetching (d : Option (ServiceResponse → ExtractedData))
    (c : List Record) (r : ServiceResponse) (s : FetchState) :
    (setExtractedData d c r s).isFetching = s.isFetching := by
  cases d <;> rfl

@[simp] theorem setExtractedData_isRefreshing (d : Option (ServiceResponse → ExtractedData))
    (c : List Record) (r : ServiceResponse) (s : FetchState) :
    (setExtractedData d c r s).isRefreshing = s.isRefreshing := by
  cases d <;> rfl

@[simp] theorem setExtractedData_isFetchingMore (d : Option (ServiceResponse → ExtractedData))
    (c : List Record) (r : ServiceResponse) (s : FetchState) :
    (setExtractedData d c r s).isFetchingMore = s.isFetchingMore := by
  cases d <;> rfl

/-- What fetchDataPre does to data: the reset happens exactly on a fresh
load (neither refresh nor more). -/
theorem fetchDataPre_data (p s : FetchState) (refresh more : Bool) :
    (fetchDataPre p s refresh more).data = if !refresh && !more then [] else s.data := by
  cases refresh <;> cases more <;> simp [fetchDataPre]

@[simp] theorem fetchDataPre_hasNextPage (p s : FetchState) (refresh more : Bool) :
    (fetchDataPre p s refresh more).hasNextPage = s.hasNextPage := by
  cases refresh <;> cases more <;> simp [fetchDataPre]

@[simp] theorem fetchDataPre_totalResults (p s : FetchState) (refresh more : Bool) :
    (fetchDataPre p s refresh more).totalResults = s.totalResults := by
  cases refresh <;> cases more <;> simp [fetchDataPre]

@[simp] theorem fetchDataPre_isFetchingMore (p s : FetchState) (refresh more : Bool) :
    (fetchDataPre p s refresh more).isFetchingMore = s.isFetchingMore := by
  cases refresh <;> cases more <;> simp [fetchDataPre]

/-! Claim theorems. -/

/-- C2 counterexample: a refresh invocation does not clear items before
the transport resolves.  With one record loaded, the pre-transport state
of refetchData (fetchData with refresh = true, more = false) still holds
that record, so the claimed reset-to-empty does not happen. -/
theorem refresh_clear_cex :
    (fetchDataPre stateOneItem stateOneItem true false).data ≠ [] := by
  decide

/-- C2 amended: a refresh invocation leaves items unchanged at the start
of the operation; the reset-to-empty step before the transport resolves is
performed only by a fresh load, where neither refresh nor appendMode is
set. -/
theorem refresh_keeps_items_at_start (s0 : FetchState) :
    (fetchDataPre s0 s0 true false).data = s0.data ∧
    (fetchDataPre s0 s0 false false).data = [] := by
  constructor
  · simp [fetchDataPre_data]
  · simp [fetchDataPre_data]

/-- C9: the exposed setData action replaces data with newData, sets the
three loading flags to false, and leaves page, hasNextPage, totalResults
and error unchanged. -/
theorem setData_action_spec (newData : List Record) (s : FetchState) :
    (setDataAction newData s).data = newData ∧
    (setDataAction newData s).isFetching = false ∧
    (setDataAction newData s).isRefreshing = false ∧
    (setDataAction newData s).isFetchingMore = false ∧
    (setDataAction newData s).page = s.page ∧
    (setDataAction newData s).hasNextPage = s.hasNextPage ∧
    (setDataAction newData s).totalResults = s.totalResults ∧
    (setDataAction newData s).error = s.error := by
  unfold setDataAction
  refine ⟨by simp, by simp, by simp, by simp, by simp, by simp, by simp, ?_⟩
  unfold runEffect
  split
  · simp
  · rfl

/-- C10: each of the four local mutations changes only the data field;
page, hasNextPage, totalResults, error and the three loading flags are
unchanged for every state and every argument. -/
theorem mutations_touch_only_data (s : FetchState) (newRec : Record) (id : Value)
    (patch : Record) (matchId : Value) (keyToUpdate : String) (newValue : Value)
    (matchKey : String) :
    ((addNewData newRec s).error = s.error ∧
      (addNewData newRec s).page = s.page ∧
      (addNewData newRec s).hasNextPage = s.hasNextPage ∧
      (addNewData newRec s).totalResults = s.totalResults ∧
      (addNewData newRec s).isFetching = s.isFetching ∧
      (addNewData newRec s).isRefreshing = s.isRefreshing ∧
      (addNewData newRec s).isFetchingMore = s.isFetchingMore) ∧
    ((updateExistingData id patch s).error = s.error ∧
      (updateExistingData id patch s).page = s.page ∧
      (updateExistingData id patch s).hasNextPage = s.hasNextPage ∧
      (updateExistingData id patch s).totalResults = s.totalResults ∧
      (updateExistingData id patch s).isFetching = s.isFetching ∧
      (updateExistingData id patch s).isRefreshing = s.isRefreshing ∧
      (updateExistingData id patch s).isFetchingMore = s.isFetchingMore) ∧
    ((updateExistingDataWithKey matchId keyToUpdate newValue matchKey s).error = s.error ∧
      (updateExistingDataWithKey matchId keyToUpdate newValue matchKey s).page = s.page ∧
      (updateExistingDataWithKey matchId keyToUpdate newValue matchKey s).hasNextPage
        = s.hasNextPage ∧
      (updateExistingDataWithKey matchId keyToUpdate newValue matchKey s).totalResults
        = s.totalResults ∧
      (updateExistingDataWithKey matchId keyToUpdate newValue matchKey s).isFetching
        = s.isFetching ∧
      (updateExistingDataWithKey matchId keyToUpdate newValue matchKey s).isRefreshing
        = s.isRefreshing ∧
      (updateExistingDataWithKey matchId keyToUpdate newValue matchKey s).isFetchingMore
        = s.isFetchingMore) ∧
    ((deleteExistingData id s).error = s.error ∧
      (deleteExistingData id s).page = s.page ∧
      (deleteExistingData id s).hasNextPage = s.hasNextPage ∧
      (deleteExistingData id s).totalResults = s.totalResults ∧
      (deleteExistingData id s).isFetching = s.isFetching ∧
      (deleteExistingData id s).isRefreshing = s.isRefreshing ∧
      (deleteExistingData id s).isFetchingMore = s.isFetchingMore) := by
  repeat' apply And.intro
  all_goals first
    | rfl
    | (unfold updateExistingData
       split
       · rfl
       · rfl)

/-- C1 counterexample: a failed fetch can mutate items.  A fresh load
(refresh and appendMode both unset) first resets data to empty; when the
transport then rejects, the operation completes with items empty, not with
the one record present at invocation. -/
theorem failed_fresh_load_mutates_items_cex :
    (fetchData cfgC stateOneItem false 1 false).state.data ≠ stateOneItem.data := by
  decide

/-- C1 amended: a load whose transport call fails leaves items exactly as
the pre-transport reset left them: unchanged from invocation for refresh
and append loads (including fetchNextPage), and empty for a fresh load,
where the visible reset-to-empty had already run before the failure. -/
theorem failed_fetch_items (cfg : FetchProps) (f : GetDataParams → FetchOutcome)
    (s0 : FetchState) (refresh more : Bool) (pp : Int) (m : Option String)
    (hs : cfg.serviceFn = some f)
    (hf : f { page := pp } = FetchOutcome.failure m) :
    (fetchData cfg s0 refresh pp more).state.data
      = (if refresh || more then s0.data else []) ∧
    (s0.hasNextPage = true → f { page := s0.page + 1 } = FetchOutcome.failure m →
      (fetchNextPage cfg s0).state.data = s0.data) := by
  constructor
  · simp only [fetchData, fetchDataAux, hs, hf]
    simp [fetchDataPre_data]
    cases refresh <;> cases more <;> simp
  · intro hn hf2
    simp only [fetchNextPage, hn, if_true, fetchDataAux, hs, hf2]
    simp [fetchDataPre_data]

/-- C1 witness: with the rejecting transport of Scenario C, a refresh from
a one-item state keeps that item, and so does fetchNextPage. -/
theorem failed_fetch_items_witness :
    (fetchData cfgC stateOneItem true 1 false).state.data = stateOneItem.data ∧
    (fetchNextPage cfgC stateOneItem).state.data = stateOneItem.data := by
  have h := failed_fetch_items cfgC serviceFnTimeout stateOneItem true false 1
    (some msgTimeout) rfl rfl
  exact ⟨by simpa using h.1, h.2 rfl rfl⟩

/-- C3: with an adapter present, a successful load replaces items with the
extracted items when the extracted currentPage (default 1) is at most 1,
and otherwise appends the extracted items to the items held at invocation;
the choice depends only on the extracted currentPage, not on the refresh
or appendMode arguments, over which the statement quantifies. -/
theorem adapter_replace_vs_append (cfg : FetchProps) (f : GetDataParams → FetchOutcome)
    (ex : ServiceResponse → ExtractedData) (resp : ServiceResponse) (s0 : FetchState)
    (refresh more : Bool) (pp : Int)
    (hs : cfg.serviceFn = some f) (hx : cfg.dataExtractor = some ex)
    (hf : f { page := pp } = FetchOutcome.success resp) :
    (fetchData cfg s0 refresh pp more).state.data
      = (if (ex resp).currentPage.getD 1 > 1 then s0.data ++ (ex resp).data
         else (ex resp).data) := by
  simp only [fetchData, fetchDataAux, hs, hf]
  simp [setExtractedData, hx]

/-- C3 witness: the Scenario B adapter extracts currentPage 2, so a load
from a one-item state appends the three extracted records, even though the
call is made with appendMode unset. -/
theorem adapter_replace_vs_append_witness :
    (fetchData cfgB stateOneItem false 2 false).state.data
      = stateOneItem.data ++ [recP 4, recP 5, recP 6] := by
  have h := adapter_replace_vs_append cfgB (fun _ => FetchOutcome.success {})
    extractorB {} stateOneItem false false 2 rfl rfl rfl
  simpa [extractorB] using h

/-- C4: with an adapter present, after a successful load hasNextPage holds
exactly when the extracted totalPages (default 1) exceeds the extracted
currentPage (default 1); in particular it is false when the adapter omits
both pagination fields. -/
theorem adapter_hasNextPage (cfg : FetchProps) (f : GetDataParams → FetchOutcome)
    (ex : ServiceResponse → ExtractedData) (resp : ServiceResponse) (s0 : FetchState)
    (refresh more : Bool) (pp : Int)
    (hs : cfg.serviceFn = some f) (hx : cfg.dataExtractor = some ex)
    (hf : f { page := pp } = FetchOutcome.success resp) :
    ((fetchData cfg s0 refresh pp more).state.hasNextPage = true
      ↔ (ex resp).totalPages.getD 1 > (ex resp).currentPage.getD 1) ∧
    ((ex resp).totalPages = none → (ex resp).currentPage = none →
      (fetchData cfg s0 refresh pp more).state.hasNextPage = false) := by
  constructor
  · simp only [fetchData, fetchDataAux, hs, hf]
    simp [setExtractedData, hx]
  · intro h1 h2
    simp only [fetchData, fetchDataAux, hs, hf]
    simp [setExtractedData, hx, h1, h2]

/-- C4 witness: the Scenario B adapter reports totalPages 3 and
currentPage 2, so after the load hasNextPage is true. -/
theorem adapter_hasNextPage_witness :
    (fetchData cfgB stateOneItem false 2 false).state.hasNextPage = true := by
  have h := adapter_hasNextPage cfgB (fun _ => FetchOutcome.success {})
    extractorB {} stateOneItem false false 2 rfl rfl rfl
  exact h.1.mpr (by simp [extractorB])

/-- C5: after any completed fetch operation that actually ran the
transport (fetchData with any refresh, page and appendMode arguments, and
hence refetchData, with either outcome, and fetchNextPage when a next page
exists), all three loading flags are false. -/
theorem flags_false_after_completion (cfg : FetchProps) (f : GetDataParams → FetchOutcome)
    (s0 : FetchState) (refresh more : Bool) (pp : Int)
    (hs : cfg.serviceFn = some f) :
    ((fetchData cfg s0 refresh pp more).state.isFetching = false ∧
     (fetchData cfg s0 refresh pp more).state.isRefreshing = false ∧
     (fetchData cfg s0 refresh pp more).state.isFetchingMore = false) ∧
    (s0.hasNextPage = true →
      (fetchNextPage cfg s0).state.isFetching = false ∧
      (fetchNextPage cfg s0).state.isRefreshing = false ∧
      (fetchNextPage cfg s0).state.isFetchingMore = false) := by
  constructor
  · cases hout : f { page := pp } <;>
      simp [fetchData, fetchDataAux, hs, hout]
  · intro hn
    cases hout : f { page := s0.page + 1 } <;>
      simp [fetchNextPage, hn, fetchDataAux, hs, hout]

/-- C5 witness: after a fresh load and after fetchNextPage with the
Scenario B configuration from a one-item state with a next page, all three
loading flags are false. -/
theorem flags_false_after_completion_witness :
    (fetchData cfgB stateOneItem false 1 false).state.isFetching = false ∧
    (fetchNextPage cfgB stateOneItem).state.isFetchingMore = false := by
  have h := flags_false_after_completion cfgB (fun _ => FetchOutcome.success {})
    stateOneItem false false 1 rfl
  exact ⟨h.1.1, (h.2 rfl).2.2⟩

/-- C6: from a quiescent state (all three loading flags false, as after
any completed operation), starting a fresh load, a refresh, or a next-page
load sets error to absent in the flush before the transport resolves,
whatever error held before. -/
theorem error_cleared_on_new_op (s0 : FetchState)
    (h1 : s0.isFetching = false) (h2 : s0.isRefreshing = false)
    (h3 : s0.isFetchingMore = false) :
    (fetchDataPre s0 s0 false false).error = none ∧
    (fetchDataPre s0 s0 true false).error = none ∧
    (fetchDataPre s0 { s0 with isFetchingMore := true } false true).error = none := by
  refine ⟨?_, ?_, ?_⟩ <;>
    simp [fetchDataPre, runEffect, flagsOf, h1, h2, h3]

/-- C6 witness: from a quiescent one-item state holding the timeout error,
all three kinds of load clear error before the transport resolves. -/
theorem error_cleared_on_new_op_witness :
    stateErr.error ≠ none ∧
    (fetchDataPre stateErr stateErr false false).error = none ∧
    (fetchDataPre stateErr stateErr true false).error = none ∧
    (fetchDataPre stateErr { stateErr with isFetchingMore := true } false true).error
      = none := by
  have h := error_cleared_on_new_op stateErr rfl rfl rfl
  exact ⟨by decide, h.1, h.2.1, h.2.2⟩

/-- C7: fetchNextPage is a no-op when hasNextPage is false, returning the
entry state with no transport call; when hasNextPage is true it runs
fetchData in append mode at page + 1 from the state with isFetchingMore
set, that flag is true before the transport resolves, and the transport is
called once with page + 1. -/
theorem fetchNextPage_spec (cfg : FetchProps) (f : GetDataParams → FetchOutcome)
    (s0 : FetchState) (hs : cfg.serviceFn = some f) :
    (s0.hasNextPage = false →
      fetchNextPage cfg s0
        = { state := s0, serviceCalls := [], onErrorCalls := [] }) ∧
    (s0.hasNextPage = true →
      (fetchDataPre s0 { s0 with isFetchingMore := true } false true).isFetchingMore
          = true ∧
      fetchNextPage cfg s0
        = fetchDataAux cfg s0 { s0 with isFetchingMore := true } false (s0.page + 1) true ∧
      (fetchNextPage cfg s0).serviceCalls = [s0.page + 1]) := by
  refine ⟨fun hn => by simp [fetchNextPage, hn], fun hn => ⟨?_, ?_, ?_⟩⟩
  · simp [fetchDataPre]
  · simp [fetchNextPage, hn]
  · cases hout : f { page := s0.page + 1 } <;>
      simp [fetchNextPage, hn, fetchDataAux, hs, hout]

/-- C7 witness: from the one-item state with a next page, fetchNextPage
under the Scenario B configuration calls the transport once with page 2
and shows isFetchingMore before the transport resolves. -/
theorem fetchNextPage_spec_witness :
    (fetchDataPre stateOneItem { stateOneItem with isFetchingMore := true } false
        true).isFetchingMore = true ∧
    (fetchNextPage cfgB stateOneItem).serviceCalls = [stateOneItem.page + 1] := by
  have h := fetchNextPage_spec cfgB (fun _ => FetchOutcome.success {}) stateOneItem rfl
  exact ⟨(h.2 rfl).1, (h.2 rfl).2.2⟩

/-- C8: with no adapter, a successful load concatenates the response data
field (default empty) onto the items held at invocation — never a
replacement — leaves hasNextPage at its prior value, and completes with
the initial-loading flag false. -/
theorem no_adapter_appends (cfg : FetchProps) (f : GetDataParams → FetchOutcome)
    (resp : ServiceResponse) (s0 : FetchState) (refresh more : Bool) (pp : Int)
    (hs : cfg.serviceFn = some f) (hx : cfg.dataExtractor = none)
    (hf : f { page := pp } = FetchOutcome.success resp) :
    (fetchData cfg s0 refresh pp more).state.data = s0.data ++ resp.data.getD [] ∧
    (fetchData cfg s0 refresh pp more).state.hasNextPage = s0.hasNextPage ∧
    (fetchData cfg s0 refresh pp more).state.isFetching = false := by
  refine ⟨?_, ?_, ?_⟩ <;>
    · simp only [fetchData, fetchDataAux, hs, hf]
      simp [setExtractedData, hx]

/-- C8 witness, Scenario A: constructed with empty initialData and no
adapter, a fresh load whose transport resolves with data [recX] ends with
items equal to [recX] and isFetching false. -/
theorem no_adapter_appends_witness :
    (fetchData cfgA (initialState []) false 1 false).state.data = [recX] ∧
    (fetchData cfgA (initialState []) false 1 false).state.isFetching = false := by
  have h := no_adapter_appends cfgA serviceFnX { data := some [recX] }
    (initialState []) false false 1 rfl rfl rfl
  exact ⟨by simpa [initialState] using h.1, h.2.2⟩

end UseFetch
